import Mathlib

/-!
Shallow embedding of the gruposiete repository core:
audit stamping in `ModeloBase.save` (src/app/models.py), the two
authorization predicates (src/api/permissions.py), the model defaults
and choice validation, and the relational cascade / nullify rules
implied by the foreign-key declarations in src/app/models.py.
-/

/-! ## Audit stamping: `ModeloBase.save` (src/app/models.py lines 37-44) -/

/-- Python truthiness of a Django primary key: `None` and `0` are falsy,
every other integer is truthy. -/
def pkTruthy : Option Nat → Bool
  | none => false
  | some n => n != 0

/-- A reference to a user object as seen by `ModeloBase.save`: only its
primary key matters there (`user.pk`), which is `None` until persisted. -/
structure UserRef where
  pk : Option Nat
deriving DecidableEq, Repr

/-- The audit-relevant state of a record deriving from `ModeloBase`:
its primary key and the `created_by` / `updated_by` foreign keys
(both nullable references to a user). -/
structure AuditedRecord where
  pk : Option Nat
  created_by : Option UserRef
  updated_by : Option UserRef
deriving DecidableEq, Repr

/-- Embedding of `ModeloBase.save`:
```
def save(self, *args, **kwargs):
    user = get_current_user()
    if user and not user.pk:
        user = None
    if not self.pk:
        self.created_by = user
        self.updated_by = user
    super(ModeloBase, self).save(*args, **kwargs)
```
`ambient` is the result of `crum.get_current_user()`; `newPk` is the
primary key the storage layer assigns when it inserts a record whose pk
is `None`. -/
def ModeloBase.save (rec : AuditedRecord) (ambient : Option UserRef)
    (newPk : Nat) : AuditedRecord :=
  let user : Option UserRef :=
    match ambient with
    | none => none
    | some u => if pkTruthy u.pk then some u else none
  let rec1 :=
    if pkTruthy rec.pk then rec
    else { rec with created_by := user, updated_by := user }
  if rec1.pk.isNone then { rec1 with pk := some newPk } else rec1

/-! ## Authorization predicates (src/api/permissions.py) -/

/-- The exception classes distinguished by the two `except` clauses:
`AttributeError` (the caller object lacks an attribute such as
`groups`) and any other `Exception`. -/
inductive PyExc where
  | attributeError
  | otherError
deriving DecidableEq, Repr

/-- A caller object (`request.user` when it is not `None`): evaluating
`is_staff` or `groups.filter(name=g).exists()` either returns a boolean
or raises an exception. -/
structure Caller where
  is_staff : Except PyExc Bool
  groupsExists : String → Except PyExc Bool

/-- The generic exception handler shared by both permission classes:
`except AttributeError: return False` and `except Exception: return False`. -/
def handleExc (r : Except PyExc Bool) : Except PyExc Bool :=
  match r with
  | Except.ok b => Except.ok b
  | Except.error PyExc.attributeError => Except.ok false
  | Except.error PyExc.otherError => Except.ok false

namespace IsOrganizacionSectorial

/-- The `try` body of `IsOrganizacionSectorial.has_permission`:
`request.user and request.user.groups.filter(name='organizacion_sectorial').exists()`.
A `None` user short-circuits to a falsy result. -/
def body (user : Option Caller) : Except PyExc Bool :=
  match user with
  | none => Except.ok false
  | some u => u.groupsExists "organizacion_sectorial"

/-- `IsOrganizacionSectorial.has_permission`: the body wrapped in the
exception handler. -/
def has_permission (user : Option Caller) : Except PyExc Bool :=
  handleExc (body user)

end IsOrganizacionSectorial

namespace IsOrganizacionSectorialOrAdmin

/-- The `try` body of `IsOrganizacionSectorialOrAdmin.has_permission`:
`request.user and (request.user.is_staff or
request.user.groups.filter(name='organizacion_sectorial').exists())`.
Python evaluates `is_staff` first and short-circuits on `True`. -/
def body (user : Option Caller) : Except PyExc Bool :=
  match user with
  | none => Except.ok false
  | some u =>
    match u.is_staff with
    | Except.error e => Except.error e
    | Except.ok true => Except.ok true
    | Except.ok false => u.groupsExists "organizacion_sectorial"

/-- `IsOrganizacionSectorialOrAdmin.has_permission`: the body wrapped in
the exception handler. -/
def has_permission (user : Option Caller) : Except PyExc Bool :=
  handleExc (body user)

end IsOrganizacionSectorialOrAdmin

/-! Concrete callers used in witnesses and counterexamples. -/

/-- A staff caller that is not in any group (both attributes evaluate
normally). -/
def staffOnlyCaller : Caller :=
  { is_staff := Except.ok true, groupsExists := fun _ => Except.ok false }

/-- A non-staff caller belonging to the group named
`organizacion_sectorial`. -/
def sectorialCaller : Caller :=
  { is_staff := Except.ok false,
    groupsExists := fun g => Except.ok (g == "organizacion_sectorial") }

/-- A non-staff caller belonging to no group. -/
def plainCaller : Caller :=
  { is_staff := Except.ok false, groupsExists := fun _ => Except.ok false }

/-- A caller object that lacks the `groups` attribute entirely, so any
group lookup raises `AttributeError`, but whose `is_staff` attribute is
present and true. -/
def staffNoGroupsCaller : Caller :=
  { is_staff := Except.ok true,
    groupsExists := fun _ => Except.error PyExc.attributeError }

/-- A caller object lacking both attributes: every evaluation raises
`AttributeError`. -/
def bareCaller : Caller :=
  { is_staff := Except.error PyExc.attributeError,
    groupsExists := fun _ => Except.error PyExc.attributeError }

/-- A caller whose group lookup fails with an arbitrary non-attribute
error (for example a storage error). -/
def storageErrorCaller : Caller :=
  { is_staff := Except.ok false,
    groupsExists := fun _ => Except.error PyExc.otherError }

/-! ## Domain model (src/app/models.py) -/

/-- The `FRECUENCIA` choices list (src/app/models.py lines 98-102),
first element of each pair. -/
def FRECUENCIA : List String := ["ANUAL", "UNICA", "CADA_5_ANIOS"]

/-- The `ESTADO_VERIFICACION` choices list (src/app/models.py lines
215-219), first element of each pair. -/
def ESTADO_VERIFICACION : List String :=
  ["VERIFICACION_PENDIENTE", "VERIFICADA", "RECHAZADA"]

/-- The fields of `Medida` (src/app/models.py lines 104-135); foreign
keys are primary keys of the referenced rows, `tipo_de_dato_a_validar`
is nullable. The many-to-many `verificaciones` lives in the
`VerificacionMedidaRow` join table. -/
structure Medida where
  referencia_pda : String
  nombre_corto : String
  indicador : String
  formula_de_calculo : String
  frecuencia_reporte : String
  tipo_de_dato_a_validar : Option String
  tipo_medida : Nat
  plan : Nat
  organismo_sectorial : Nat
deriving DecidableEq, Repr

/-- Constructing a `Medida`: when no `frecuencia_reporte` is supplied
the field default `ANUAL` applies (line 130:
`models.CharField(max_length=30, choices=FRECUENCIA, default='ANUAL')`). -/
def Medida.new (referencia_pda nombre_corto indicador formula_de_calculo : String)
    (frecuencia_reporte : Option String) (tipo_de_dato_a_validar : Option String)
    (tipo_medida plan organismo_sectorial : Nat) : Medida :=
  { referencia_pda := referencia_pda
    nombre_corto := nombre_corto
    indicador := indicador
    formula_de_calculo := formula_de_calculo
    frecuencia_reporte := frecuencia_reporte.getD "ANUAL"
    tipo_de_dato_a_validar := tipo_de_dato_a_validar
    tipo_medida := tipo_medida
    plan := plan
    organismo_sectorial := organismo_sectorial }

/-- The fields of `MedidaReportada` (src/app/models.py lines 220-240). -/
structure MedidaReportada where
  organismo_sectorial : Nat
  medida : Nat
  valor : String
  estado : String
deriving DecidableEq, Repr

/-- Constructing a `MedidaReportada`: when no `estado` is supplied the
field default `VERIFICACION_PENDIENTE` applies (line 240:
`models.CharField(max_length=30, choices=ESTADO_VERIFICACION,
default='VERIFICACION_PENDIENTE')`). -/
def MedidaReportada.new (organismo_sectorial medida : Nat) (valor : String)
    (estado : Option String) : MedidaReportada :=
  { organismo_sectorial := organismo_sectorial
    medida := medida
    valor := valor
    estado := estado.getD "VERIFICACION_PENDIENTE" }

/-- Django choice validation of the `estado` field, as run by
`full_clean`: the stored value must be one of the declared choices and
respect the `max_length=30` bound of the `CharField`. -/
def MedidaReportada.estado_clean (r : MedidaReportada) : Bool :=
  ESTADO_VERIFICACION.contains r.estado && r.estado.length ≤ 30

/-- Django choice validation of the `frecuencia_reporte` field, as run
by `full_clean`. -/
def Medida.frecuencia_clean (m : Medida) : Bool :=
  FRECUENCIA.contains m.frecuencia_reporte && m.frecuencia_reporte.length ≤ 30

/-! ## Relational state and the cascade / nullify delete rules -/

/-- A persisted `Medida` row: its primary key plus its fields. -/
structure MedidaRow where
  pk : Nat
  data : Medida
deriving DecidableEq, Repr

/-- A persisted `MedidaReportada` row. -/
structure MedidaReportadaRow where
  pk : Nat
  data : MedidaReportada
deriving DecidableEq, Repr

/-- A `VerificacionMedida` join row (src/app/models.py lines 144-150):
foreign keys to `Verificacion` and `Medida`, both `CASCADE`. -/
structure VerificacionMedidaRow where
  pk : Nat
  verificacion : Nat
  medida : Nat
deriving DecidableEq, Repr

/-- An `OrganismoPlan` join row (src/app/models.py lines 203-212):
foreign keys to `OrganismoSectorial` and `Plan`, both `CASCADE`. -/
structure OrganismoPlanRow where
  pk : Nat
  organismo_sectorial : Nat
  plan : Nat
deriving DecidableEq, Repr

/-- A `CustomUser` row (src/app/models.py lines 242-253): the nullable
foreign key `organismo_sectorial` is declared `on_delete=SET_NULL`. -/
structure CustomUser where
  pk : Nat
  username : String
  is_staff : Bool
  organismo_sectorial : Option Nat
deriving DecidableEq, Repr

/-- The relational state: one table per model. `TipoMedida`, `Plan`,
`OrganismoSectorial` and `Verificacion` rows are identified by their
primary key (their remaining columns play no role in deletion). -/
structure DB where
  tipoMedidas : List Nat
  verificaciones : List Nat
  planes : List Nat
  organismoSectoriales : List Nat
  medidas : List MedidaRow
  verificacionMedidas : List VerificacionMedidaRow
  organismoPlanes : List OrganismoPlanRow
  medidaReportadas : List MedidaReportadaRow
  usuarios : List CustomUser
deriving Repr

/-- Django delete collector step shared by the three parents of
`Medida`: delete every `Medida` row matching `cond` and, cascading
through its `CASCADE` back-references, every `VerificacionMedida` and
`MedidaReportada` row pointing at a deleted `Medida`. -/
def deleteMedidasBy (db : DB) (cond : MedidaRow → Bool) : DB :=
  let doomed := (db.medidas.filter cond).map (fun m => m.pk)
  { db with
    medidas := db.medidas.filter (fun m => !(cond m))
    verificacionMedidas :=
      db.verificacionMedidas.filter (fun v => !(doomed.contains v.medida))
    medidaReportadas :=
      db.medidaReportadas.filter (fun r => !(doomed.contains r.data.medida)) }

/-- Deleting a `Medida` row by primary key: the row goes, and so do its
`VerificacionMedida` and `MedidaReportada` dependents (`CASCADE` on
lines 146, 238). -/
def DB.deleteMedida (db : DB) (m : Nat) : DB :=
  { db with
    medidas := db.medidas.filter (fun r => r.pk != m)
    verificacionMedidas := db.verificacionMedidas.filter (fun v => v.medida != m)
    medidaReportadas := db.medidaReportadas.filter (fun r => r.data.medida != m) }

/-- Deleting a `Plan` row: `Medida.plan` is `CASCADE` (line 133), so
every `Medida` referencing it is collected together with that Medida's
own dependents; `OrganismoPlan.plan` is `CASCADE` (line 205). -/
def DB.deletePlan (db : DB) (p : Nat) : DB :=
  let db1 := deleteMedidasBy db (fun m => m.data.plan == p)
  { db1 with
    planes := db1.planes.filter (fun q => q != p)
    organismoPlanes := db1.organismoPlanes.filter (fun r => r.plan != p) }

/-- Deleting a `TipoMedida` row: `Medida.tipo_medida` is `CASCADE`
(line 132). -/
def DB.deleteTipoMedida (db : DB) (t : Nat) : DB :=
  let db1 := deleteMedidasBy db (fun m => m.data.tipo_medida == t)
  { db1 with tipoMedidas := db1.tipoMedidas.filter (fun q => q != t) }

/-- Deleting an `OrganismoSectorial` row: `Medida.organismo_sectorial`
(line 134), `MedidaReportada.organismo_sectorial` (line 237) and
`OrganismoPlan.organismo_sectorial` (line 204) are `CASCADE`;
`CustomUser.organismo_sectorial` is `SET_NULL` (line 245), so the user
rows survive with the reference nulled. -/
def DB.deleteOrganismoSectorial (db : DB) (o : Nat) : DB :=
  let db1 := deleteMedidasBy db (fun m => m.data.organismo_sectorial == o)
  { db1 with
    organismoSectoriales := db1.organismoSectoriales.filter (fun q => q != o)
    organismoPlanes :=
      db1.organismoPlanes.filter (fun r => r.organismo_sectorial != o)
    medidaReportadas :=
      db1.medidaReportadas.filter (fun r => r.data.organismo_sectorial != o)
    usuarios := db1.usuarios.map (fun u =>
      if u.organismo_sectorial == some o then
        { u with organismo_sectorial := none }
      else u) }

/-! ## Theorems about audit stamping (claims C1, C3, C4) -/

/-- Claim C4: for every audited record created (first persisted) with a
valid ambient actor A (present and with a persisted identity),
immediately after creation created_by = A and updated_by = A. -/
theorem audit_creation_stamps_actor (rec : AuditedRecord) (a : UserRef)
    (newPk : Nat) (hrec : pkTruthy rec.pk = false) (ha : pkTruthy a.pk = true) :
    (ModeloBase.save rec (some a) newPk).created_by = some a ∧
    (ModeloBase.save rec (some a) newPk).updated_by = some a := by
  unfold ModeloBase.save
  simp only [hrec, ha, if_true, Bool.false_eq_true, if_false]
  split <;> simp

/-- Witness for C4: a fresh record saved while user 1 is the ambient
actor gets created_by = updated_by = user 1. -/
theorem audit_creation_stamps_actor_witness :
    pkTruthy (AuditedRecord.mk none none none).pk = false ∧
    pkTruthy (UserRef.mk (some 1)).pk = true ∧
    ((ModeloBase.save ⟨none, none, none⟩ (some ⟨some 1⟩) 5).created_by = some ⟨some 1⟩ ∧
     (ModeloBase.save ⟨none, none, none⟩ (some ⟨some 1⟩) 5).updated_by = some ⟨some 1⟩) :=
  ⟨by decide, by decide,
   audit_creation_stamps_actor ⟨none, none, none⟩ ⟨some 1⟩ 5 (by decide) (by decide)⟩

/-- Claim C1, evaluated at the failing input: a record already persisted
(pk 1, created and last updated by user 5) is saved while user 7 (a
persisted actor) is ambient, and updated_by stays user 5. The claim,
the spec and the docstring of ModeloBase (updated_by is the user who
made the last modification) all require updated_by = user 7, but
`save` assigns updated_by only inside the `if not self.pk` branch. -/
theorem save_update_does_not_stamp_updated_by :
    (ModeloBase.save ⟨some 1, some ⟨some 5⟩, some ⟨some 5⟩⟩ (some ⟨some 7⟩) 99).updated_by
      = some ⟨some 5⟩ := by decide

/-- Claim C3, counterexample: a save of an already-persisted record with
no ambient actor leaves the previously stamped created_by and updated_by
in place; they are not null after that save. -/
theorem save_no_actor_not_always_null :
    ¬ ((ModeloBase.save ⟨some 1, some ⟨some 5⟩, some ⟨some 5⟩⟩ none 99).created_by = none ∧
       (ModeloBase.save ⟨some 1, some ⟨some 5⟩, some ⟨some 5⟩⟩ none 99).updated_by = none) := by
  decide

/-- Claim C3 (amended): for every save of an audited record that has no
persisted identity yet (a creation), when the ambient actor is absent or
has no persisted identity, created_by and updated_by are null after the
save. -/
theorem audit_creation_no_actor_leaves_null (rec : AuditedRecord)
    (ambient : Option UserRef) (newPk : Nat)
    (hrec : pkTruthy rec.pk = false)
    (hamb : ambient = none ∨ ∃ u, ambient = some u ∧ pkTruthy u.pk = false) :
    (ModeloBase.save rec ambient newPk).created_by = none ∧
    (ModeloBase.save rec ambient newPk).updated_by = none := by
  unfold ModeloBase.save
  rcases hamb with h | ⟨u, h, hu⟩
  · subst h
    simp only [hrec, Bool.false_eq_true, if_false]
    split <;> simp
  · subst h
    simp only [hrec, hu, Bool.false_eq_true, if_false]
    split <;> simp

/-- Witness for the amended C3: a fresh record saved while the ambient
actor is an unpersisted user has both audit fields null. -/
theorem audit_creation_no_actor_leaves_null_witness :
    pkTruthy (AuditedRecord.mk none none none).pk = false ∧
    ((ModeloBase.save ⟨none, none, none⟩ (some ⟨none⟩) 5).created_by = none ∧
     (ModeloBase.save ⟨none, none, none⟩ (some ⟨none⟩) 5).updated_by = none) :=
  ⟨by decide,
   audit_creation_no_actor_leaves_null ⟨none, none, none⟩ (some ⟨none⟩) 5 (by decide)
     (Or.inr ⟨⟨none⟩, rfl, by decide⟩)⟩

/-! ## Theorems about the authorization predicates (claims C2, C5, C6) -/

/-- The exception handler always produces an ordinary boolean result. -/
theorem handleExc_total (r : Except PyExc Bool) :
    ∃ b, handleExc r = Except.ok b := by
  cases r with
  | ok b => exact ⟨b, rfl⟩
  | error e => cases e <;> exact ⟨false, rfl⟩

/-- The exception handler turns every raised exception into false. -/
theorem handleExc_error (r : Except PyExc Bool) (e : PyExc)
    (h : r = Except.error e) : handleExc r = Except.ok false := by
  subst h; cases e <;> rfl

/-- The exception handler is the identity on ordinary results. -/
theorem handleExc_ok (r : Except PyExc Bool) (b : Bool)
    (h : r = Except.ok b) : handleExc r = Except.ok b := by
  subst h; rfl

/-- A true result out of the handler can only come from a true result of
the wrapped body. -/
theorem handleExc_true (r : Except PyExc Bool)
    (h : handleExc r = Except.ok true) : r = Except.ok true := by
  cases r with
  | ok b => cases b with
    | true => rfl
    | false => exact absurd h (by simp [handleExc])
  | error e => cases e <;> simp [handleExc] at h

/-- The body of SectorialOnly on a present caller is its group lookup. -/
theorem sectorial_body_some (c : Caller) :
    IsOrganizacionSectorial.body (some c)
      = c.groupsExists "organizacion_sectorial" := rfl

/-- The body of SectorialOrAdmin on a present caller whose is_staff
evaluation returns normally: staff short-circuits to true, otherwise the
group lookup decides. -/
theorem orAdmin_body_some (c : Caller) (s : Bool)
    (hs : c.is_staff = Except.ok s) :
    IsOrganizacionSectorialOrAdmin.body (some c)
      = if s then Except.ok true else c.groupsExists "organizacion_sectorial" := by
  have hred : IsOrganizacionSectorialOrAdmin.body (some c)
      = match c.is_staff with
        | Except.error e => Except.error e
        | Except.ok true => Except.ok true
        | Except.ok false => c.groupsExists "organizacion_sectorial" := rfl
  rw [hred, hs]
  cases s <;> rfl

/-- Claim C2, counterexample: a staff caller whose `groups` attribute is
missing (every group lookup raises AttributeError) lacks the
group-membership capability, yet `IsOrganizacionSectorialOrAdmin` grants
access, because `is_staff` short-circuits before `groups` is touched.
So it is not the case that both predicates return false on every such
caller. -/
theorem orAdmin_true_for_staff_without_groups :
    staffNoGroupsCaller.groupsExists "organizacion_sectorial"
        = Except.error PyExc.attributeError ∧
    IsOrganizacionSectorialOrAdmin.has_permission (some staffNoGroupsCaller)
        = Except.ok true :=
  ⟨rfl, rfl⟩

/-- Claim C2 (amended): both predicates never propagate an exception
(the result is always an ordinary boolean); an absent caller is denied
by both; and whenever the body of a predicate raises any exception, that
predicate returns false. (A staff caller lacking the group-membership
capability is still granted access by SectorialOrAdmin, since staff
status short-circuits before the group lookup.) -/
theorem permissions_fail_closed (user : Option Caller) :
    (∃ b, IsOrganizacionSectorial.has_permission user = Except.ok b) ∧
    (∃ b, IsOrganizacionSectorialOrAdmin.has_permission user = Except.ok b) ∧
    (user = none →
      IsOrganizacionSectorial.has_permission user = Except.ok false ∧
      IsOrganizacionSectorialOrAdmin.has_permission user = Except.ok false) ∧
    (∀ e, IsOrganizacionSectorial.body user = Except.error e →
      IsOrganizacionSectorial.has_permission user = Except.ok false) ∧
    (∀ e, IsOrganizacionSectorialOrAdmin.body user = Except.error e →
      IsOrganizacionSectorialOrAdmin.has_permission user = Except.ok false) := by
  refine ⟨handleExc_total _, handleExc_total _, ?_, ?_, ?_⟩
  · rintro rfl
    exact ⟨rfl, rfl⟩
  · intro e he
    exact handleExc_error _ e he
  · intro e he
    exact handleExc_error _ e he

/-- Witness for the amended C2: a caller whose every attribute access
raises is denied by SectorialOnly, and an absent caller is denied by
SectorialOrAdmin. -/
theorem permissions_fail_closed_witness :
    IsOrganizacionSectorial.has_permission (some bareCaller) = Except.ok false ∧
    IsOrganizacionSectorialOrAdmin.has_permission none = Except.ok false :=
  ⟨(permissions_fail_closed (some bareCaller)).2.2.2.1 PyExc.attributeError rfl,
   ((permissions_fail_closed none).2.2.1 rfl).2⟩

/-- Claim C5: SectorialOnly returns true exactly when a caller is
present and its lookup of the group `organizacion_sectorial` succeeds
with true; in particular an absent caller and a staff caller not in that
group are denied. -/
theorem sectorial_only_iff (user : Option Caller) :
    (IsOrganizacionSectorial.has_permission user = Except.ok true ↔
      ∃ c, user = some c ∧
        c.groupsExists "organizacion_sectorial" = Except.ok true) ∧
    IsOrganizacionSectorial.has_permission none = Except.ok false ∧
    IsOrganizacionSectorial.has_permission (some staffOnlyCaller) = Except.ok false := by
  refine ⟨⟨?_, ?_⟩, rfl, rfl⟩
  · intro h
    cases user with
    | none => exact absurd h (by simp [IsOrganizacionSectorial.has_permission,
        IsOrganizacionSectorial.body, handleExc])
    | some c =>
      refine ⟨c, rfl, ?_⟩
      have := handleExc_true _ h
      rwa [sectorial_body_some] at this
  · rintro ⟨c, rfl, hg⟩
    exact handleExc_ok _ true (by rw [sectorial_body_some, hg])

/-- Witness for C5: a non-staff member of the group is granted access. -/
theorem sectorial_only_iff_witness :
    IsOrganizacionSectorial.has_permission (some sectorialCaller) = Except.ok true :=
  (sectorial_only_iff (some sectorialCaller)).1.mpr ⟨sectorialCaller, rfl, by rfl⟩

/-- Claim C6: SectorialOrAdmin denies an absent caller, and for every
present caller whose attribute evaluations return normally (is_staff
yields s, the group lookup yields m), it grants access exactly when the
caller is staff or a member of the group; in particular a staff caller
outside the group is granted and a non-staff non-member is denied. -/
theorem sectorial_or_admin_iff (user : Option Caller) :
    (user = none →
      IsOrganizacionSectorialOrAdmin.has_permission user = Except.ok false) ∧
    ∀ c s m, user = some c → c.is_staff = Except.ok s →
      c.groupsExists "organizacion_sectorial" = Except.ok m →
      (IsOrganizacionSectorialOrAdmin.has_permission user = Except.ok true ↔
        (s = true ∨ m = true)) := by
  constructor
  · rintro rfl
    rfl
  · rintro c s m rfl hs hm
    unfold IsOrganizacionSectorialOrAdmin.has_permission
    rw [orAdmin_body_some c s hs]
    cases s with
    | true => simp [handleExc]
    | false =>
      rw [if_neg (by simp), hm]
      cases m <;> simp [handleExc]

/-- Witness for C6: a staff caller outside the group is granted access
by SectorialOrAdmin, and a non-staff non-member is denied. -/
theorem sectorial_or_admin_iff_witness :
    IsOrganizacionSectorialOrAdmin.has_permission (some staffOnlyCaller) = Except.ok true ∧
    ¬ IsOrganizacionSectorialOrAdmin.has_permission (some plainCaller) = Except.ok true :=
  ⟨((sectorial_or_admin_iff (some staffOnlyCaller)).2 staffOnlyCaller true false
      rfl rfl rfl).mpr (Or.inl rfl),
   fun h => by
    have := ((sectorial_or_admin_iff (some plainCaller)).2 plainCaller false false
      rfl rfl rfl).mp h
    simp at this⟩

/-! ## Theorems about model defaults and choice validation (claims C7, C10) -/

/-- Claim C7: every MedidaReportada created without an explicit estado
has estado VERIFICACION_PENDIENTE, and every MedidaReportada passing the
choice validation of the estado field has estado among
VERIFICACION_PENDIENTE, VERIFICADA, RECHAZADA. -/
theorem medida_reportada_estado_default_and_closed :
    (∀ org m v, (MedidaReportada.new org m v none).estado = "VERIFICACION_PENDIENTE") ∧
    ∀ r : MedidaReportada, r.estado_clean = true → r.estado ∈ ESTADO_VERIFICACION := by
  refine ⟨fun _ _ _ => rfl, fun r h => ?_⟩
  unfold MedidaReportada.estado_clean at h
  have hc : ESTADO_VERIFICACION.contains r.estado = true :=
    (Bool.and_eq_true _ _).mp h |>.1
  simpa using hc

/-- Witness for C7: a report created without estado defaults to
VERIFICACION_PENDIENTE, and one whose estado is VERIFICADA passes
validation with a value in the closed enumeration. -/
theorem medida_reportada_estado_default_and_closed_witness :
    (MedidaReportada.new 1 2 "12%" none).estado = "VERIFICACION_PENDIENTE" ∧
    (MedidaReportada.new 1 2 "12%" (some "VERIFICADA")).estado_clean = true ∧
    (MedidaReportada.new 1 2 "12%" (some "VERIFICADA")).estado ∈ ESTADO_VERIFICACION :=
  ⟨medida_reportada_estado_default_and_closed.1 1 2 "12%",
   by decide,
   medida_reportada_estado_default_and_closed.2 _ (by decide)⟩

/-- Claim C10: every Medida created without an explicit
frecuencia_reporte has frecuencia_reporte ANUAL, and ANUAL is one of
the declared FRECUENCIA choices. -/
theorem medida_frecuencia_default (rp nc ind f : String) (td : Option String)
    (tm pl os : Nat) :
    (Medida.new rp nc ind f none td tm pl os).frecuencia_reporte = "ANUAL" ∧
    "ANUAL" ∈ FRECUENCIA :=
  ⟨rfl, by decide⟩

/-! ## Theorems about cascade and nullify deletion (claims C8, C9) -/

/-- After deleting the medidas matching `cond`, no surviving medida
matches `cond`. -/
theorem deleteMedidasBy_medidas (db : DB) (cond : MedidaRow → Bool) :
    (deleteMedidasBy db cond).medidas.all (fun m => !(cond m)) = true := by
  rw [List.all_eq_true]
  intro m hm
  unfold deleteMedidasBy at hm
  simp only [List.mem_filter] at hm
  exact hm.2

/-- After deleting the medidas matching `cond`, every surviving
MedidaReportada row references no medida row of the original state that
matched `cond`. -/
theorem deleteMedidasBy_reportadas (db : DB) (cond : MedidaRow → Bool) :
    (deleteMedidasBy db cond).medidaReportadas.all (fun r =>
      db.medidas.all (fun m => (m.pk != r.data.medida) || !(cond m))) = true := by
  rw [List.all_eq_true]
  intro r hr
  unfold deleteMedidasBy at hr
  simp only [List.mem_filter] at hr
  rw [List.all_eq_true]
  intro m hm
  rcases hr with ⟨-, hnc⟩
  simp only [Bool.not_eq_true'] at hnc
  simp only [Bool.or_eq_true, bne_iff_ne, ne_eq, Bool.not_eq_true']
  by_cases hpk : m.pk = r.data.medida
  · right
    by_contra hcond
    rw [Bool.not_eq_false] at hcond
    have hmem : r.data.medida ∈ (db.medidas.filter cond).map (fun m => m.pk) :=
      List.mem_map.mpr ⟨m, List.mem_filter.mpr ⟨hm, hcond⟩, hpk⟩
    have hcont : ((db.medidas.filter cond).map (fun m => m.pk)).contains r.data.medida = true := by
      simpa using hmem
    rw [hcont] at hnc
    cases hnc
  · exact Or.inl hpk

/-- After deleting the medidas matching `cond`, every surviving
VerificacionMedida row references no medida row of the original state
that matched `cond`. -/
theorem deleteMedidasBy_verificaciones (db : DB) (cond : MedidaRow → Bool) :
    (deleteMedidasBy db cond).verificacionMedidas.all (fun v =>
      db.medidas.all (fun m => (m.pk != v.medida) || !(cond m))) = true := by
  rw [List.all_eq_true]
  intro v hv
  unfold deleteMedidasBy at hv
  simp only [List.mem_filter] at hv
  rw [List.all_eq_true]
  intro m hm
  rcases hv with ⟨-, hnc⟩
  simp only [Bool.not_eq_true'] at hnc
  simp only [Bool.or_eq_true, bne_iff_ne, ne_eq, Bool.not_eq_true']
  by_cases hpk : m.pk = v.medida
  · right
    by_contra hcond
    rw [Bool.not_eq_false] at hcond
    have hmem : v.medida ∈ (db.medidas.filter cond).map (fun m => m.pk) :=
      List.mem_map.mpr ⟨m, List.mem_filter.mpr ⟨hm, hcond⟩, hpk⟩
    have hcont : ((db.medidas.filter cond).map (fun m => m.pk)).contains v.medida = true := by
      simpa using hmem
    rw [hcont] at hnc
    cases hnc
  · exact Or.inl hpk

/-- Claim C8: deleting a Plan removes every Medida referencing it and,
through the cascade, every MedidaReportada row and VerificacionMedida
link of such a Medida; deleting a TipoMedida or an OrganismoSectorial
referenced by a Medida likewise removes the Medida; and deleting a
Medida removes all of its MedidaReportada rows and VerificacionMedida
links. -/
theorem cascade_delete_rules (db : DB) (p t o k : Nat) :
    ((db.deletePlan p).medidas.all (fun m => m.data.plan != p) = true) ∧
    ((db.deletePlan p).medidaReportadas.all (fun r =>
        db.medidas.all (fun m => (m.pk != r.data.medida) || (m.data.plan != p))) = true) ∧
    ((db.deletePlan p).verificacionMedidas.all (fun v =>
        db.medidas.all (fun m => (m.pk != v.medida) || (m.data.plan != p))) = true) ∧
    ((db.deleteTipoMedida t).medidas.all (fun m => m.data.tipo_medida != t) = true) ∧
    ((db.deleteOrganismoSectorial o).medidas.all
        (fun m => m.data.organismo_sectorial != o) = true) ∧
    ((db.deleteMedida k).medidaReportadas.all (fun r => r.data.medida != k) = true) ∧
    ((db.deleteMedida k).verificacionMedidas.all (fun v => v.medida != k) = true) := by
  refine ⟨?_, ?_, ?_, ?_, ?_, ?_, ?_⟩
  · exact deleteMedidasBy_medidas db (fun m => m.data.plan == p)
  · exact deleteMedidasBy_reportadas db (fun m => m.data.plan == p)
  · exact deleteMedidasBy_verificaciones db (fun m => m.data.plan == p)
  · exact deleteMedidasBy_medidas db (fun m => m.data.tipo_medida == t)
  · exact deleteMedidasBy_medidas db (fun m => m.data.organismo_sectorial == o)
  · rw [List.all_eq_true]
    intro r hr
    unfold DB.deleteMedida at hr
    simp only [List.mem_filter] at hr
    exact hr.2
  · rw [List.all_eq_true]
    intro v hv
    unfold DB.deleteMedida at hv
    simp only [List.mem_filter] at hv
    exact hv.2

/-- Claim C9: deleting an OrganismoSectorial keeps every CustomUser row
(same count, same pk, username and staff flag position by position) and
only nullifies the organismo_sectorial reference of the users that
pointed at the deleted organization; all other users keep their
reference unchanged. -/
theorem delete_organismo_nullifies_usuarios (db : DB) (o : Nat) :
    ((db.deleteOrganismoSectorial o).usuarios.length = db.usuarios.length) ∧
    (((db.deleteOrganismoSectorial o).usuarios.zip db.usuarios).all (fun q =>
        (q.1.pk == q.2.pk) && (q.1.username == q.2.username) &&
        (q.1.is_staff == q.2.is_staff) &&
        (if q.2.organismo_sectorial == some o then q.1.organismo_sectorial == none
         else q.1.organismo_sectorial == q.2.organismo_sectorial)) = true) := by
  have husers : (db.deleteOrganismoSectorial o).usuarios
      = db.usuarios.map (fun u =>
          if u.organismo_sectorial == some o then { u with organismo_sectorial := none }
          else u) := rfl
  rw [husers]
  refine ⟨List.length_map _ _, ?_⟩
  induction db.usuarios with
  | nil => rfl
  | cons u l ih =>
    rw [List.map_cons, List.zip_cons_cons, List.all_cons, ih, Bool.and_true]
    by_cases h : u.organismo_sectorial == some o
    · simp [h]
    · simp only [Bool.not_eq_true] at h
      simp [h]
